import Mathlib

/-!
# TAK-Wrapper bootstrap controller — verification development

Shallow embedding of the bootstrap controller of the TAK-Wrapper launcher
(`src/web/src/App.tsx`), of the configuration form validation
(`src/web/src/components/ConfigScreen.tsx`) and of the network probe of the
REST client (`src/web/src/lib/api.ts`).

React `useState` cells become fields of an explicit `AppState` record.  Each
async handler becomes a pure function from the state captured at closure
creation plus an environment record (the outcomes of the external calls the
handler awaits, `Except String` where the call can reject) to an outcome
record holding the new state together with the observable effects of the
run: navigation calls, container-start invocations, a scheduled timer
re-entry, and any exception that escapes the handler uncaught.  Reads of a
state variable inside a handler see the captured value, as the JavaScript
closures do; `setX(v)` is threaded as a record update; the functional form
`setX(prev => ...)` operates on the threaded value.  All rejections raised
by the REST client are `Error` objects, so a thrown value is modelled by its
message string.
-/

/-- Update metadata held in the `updateInfo` state cell of `App.tsx`. -/
structure UpdateInfo where
  hasUpdate : Bool
  currentVersion : String
  latestVersion : String
  releaseNotes : String
  checkComplete : Bool
  deriving Repr, DecidableEq

/-- The `useState` cells of the `App` component (`App.tsx`, lines 16-44). -/
structure AppState where
  isDockerInstalled : Option Bool
  isDockerRunning : Option Bool
  isLoading : Bool
  error : Option String
  isContainerStarting : Bool
  isApiReady : Bool
  isInitialLoad : Bool
  statusMessage : String
  updateInfo : Option UpdateInfo
  updateCheckRetries : Nat
  dockerCheckAttempts : Nat
  deriving Repr, DecidableEq

/-- `MAX_RETRIES` constant of `App.tsx` line 40. -/
def MAX_RETRIES : Nat := 3

/-- `MAX_DOCKER_CHECK_ATTEMPTS` constant of `App.tsx` line 44. -/
def MAX_DOCKER_CHECK_ATTEMPTS : Nat := 10

/-- `updateInfo?.checkComplete` — JavaScript optional chaining followed by
truthiness: `undefined` when `updateInfo` is `null`, which is falsy. -/
def checkCompleteOf (s : AppState) : Bool :=
  match s.updateInfo with
  | some u => u.checkComplete
  | none => false

/-- `updateInfo?.hasUpdate` under JavaScript truthiness. -/
def hasUpdateOf (s : AppState) : Bool :=
  match s.updateInfo with
  | some u => u.hasUpdate
  | none => false

/-- JavaScript truthiness of an optional string field of a JSON payload:
`undefined` and the empty string are falsy. -/
def truthy : Option String → Bool
  | none => false
  | some s => !s.isEmpty

/-- Result record of `api.startContainer`:
`{ success: boolean, error?: string, port?: string }`. -/
structure ContainerStartResult where
  success : Bool
  error : Option String
  port : Option String
  deriving Repr, DecidableEq

/-- Payload returned by `api.getConfig` as read by `checkDocker`
(`App.tsx` line 152). -/
structure ConfigData where
  TAK_SERVER_INSTALL_DIR : Option String
  BACKEND_PORT : Option String
  deriving Repr, DecidableEq

/-- Environment of one `checkDocker` run: the outcome of each external call
the handler can await, `.error` meaning a rejected promise. -/
structure DockerEnv where
  checkDockerInstalled : Except String Bool
  checkDockerRunning : Except String Bool
  getConfig : Except String ConfigData
  startContainer : Except String ContainerStartResult
  deriving Repr

/-- Outcome of one `checkDocker` run: the resulting state, the list of
`window.pywebview.api.navigate` targets in order, how many times
`api.startContainer` was invoked, the delay of the `setTimeout(checkDocker)`
re-entry when one was scheduled, and the exception flowing to the `catch`
block (`none` once caught; the field is cleared by the handler wrapper). -/
structure DockerRun where
  state : AppState
  navigations : List String
  startCalls : Nat
  retryDelay : Option Nat
  exn : Option String
  deriving Repr, DecidableEq

/-- Fixed message set by `checkDocker` when the attempt bound is exceeded
(`App.tsx` line 172). -/
def dockerNotRunningMsg : String :=
  "Docker is not running after multiple attempts. Please ensure Docker Desktop is started and try again."

/-- Fallback message when `startContainer` reports failure without an error
string (`App.tsx` lines 158 and 243). -/
def startFallbackMsg : String :=
  "Unknown error occurred while starting container"

/-- The `try` block of `checkDocker` (`App.tsx` lines 137-174), threading the
state through each `set` call.  The reads of `dockerCheckAttempts` and the
retry-bound comparison use the captured value, which is unchanged on the
branch that reads it.  A thrown rejection surfaces in `exn` together with
the state mutations already performed. -/
def checkDockerBody (s : AppState) (env : DockerEnv) : DockerRun :=
  let s := { s with error := none, statusMessage := "Checking Docker installation..." }
  match env.checkDockerInstalled with
  | .error e => { state := s, navigations := [], startCalls := 0, retryDelay := none, exn := some e }
  | .ok installed =>
    let s := { s with isDockerInstalled := some installed }
    if installed then
      let s := { s with statusMessage := "Checking if Docker is running..." }
      match env.checkDockerRunning with
      | .error e => { state := s, navigations := [], startCalls := 0, retryDelay := none, exn := some e }
      | .ok running =>
        let s := { s with isDockerRunning := some running }
        if running then
          let s := { s with dockerCheckAttempts := 0, statusMessage := "Checking configuration..." }
          match env.getConfig with
          | .error e => { state := s, navigations := [], startCalls := 0, retryDelay := none, exn := some e }
          | .ok config =>
            if truthy config.TAK_SERVER_INSTALL_DIR && truthy config.BACKEND_PORT then
              let s := { s with isInitialLoad := false, isContainerStarting := true,
                                statusMessage := "Starting TAK Manager container..." }
              match env.startContainer with
              | .error e =>
                { state := s, navigations := [], startCalls := 1, retryDelay := none, exn := some e }
              | .ok result =>
                if !result.success then
                  { state := { s with error := some (result.error.getD startFallbackMsg) },
                    navigations := [], startCalls := 1, retryDelay := none, exn := none }
                else
                  match result.port with
                  | some p =>
                    { state := { s with statusMessage := "Opening TAK Manager..." },
                      navigations := ["http://localhost:" ++ p], startCalls := 1,
                      retryDelay := none, exn := none }
                  | none =>
                    { state := s, navigations := [], startCalls := 1, retryDelay := none, exn := none }
            else
              { state := s, navigations := [], startCalls := 0, retryDelay := none, exn := none }
        else
          if s.dockerCheckAttempts < MAX_DOCKER_CHECK_ATTEMPTS then
            { state := { s with statusMessage := "Waiting for Docker to start",
                                dockerCheckAttempts := s.dockerCheckAttempts + 1 },
              navigations := [], startCalls := 0, retryDelay := some 3000, exn := none }
          else
            { state := { s with error := some dockerNotRunningMsg },
              navigations := [], startCalls := 0, retryDelay := none, exn := none }
    else
      { state := s, navigations := [], startCalls := 0, retryDelay := none, exn := none }

/-- `checkDocker` (`App.tsx` lines 134-188): the initial guard, the `try`
body, the `catch` block turning a rejection into `setError`, and the
`finally` block, whose `isDockerRunning` read sees the value captured at
closure creation. -/
def checkDocker (s : AppState) (env : DockerEnv) : DockerRun :=
  if !s.isApiReady || !checkCompleteOf s then
    { state := s, navigations := [], startCalls := 0, retryDelay := none, exn := none }
  else
    let r := checkDockerBody s env
    let r :=
      match r.exn with
      | some e => { r with state := { r.state with error := some e }, exn := none }
      | none => r
    if s.isDockerRunning = some true then
      { r with state := { r.state with isLoading := false, isContainerStarting := false } }
    else
      r

/-- Data returned by `api.checkForUpdate` (`api.ts` lines 113-132). -/
structure UpdateData where
  hasUpdate : Bool
  currentVersion : String
  latestVersion : String
  releaseNotes : String
  error : Option String
  deriving Repr, DecidableEq

/-- Environment of one `checkForUpdates` run.  `api.checkNetwork` never
rejects (`api.ts` lines 134-145), so the two probe calls are plain
booleans; the update fetch can reject. -/
structure UpdateEnv where
  network1 : Bool
  checkForUpdate : Except String UpdateData
  network2 : Bool
  deriving Repr

/-- Outcome of one `checkForUpdates` run: the new state and the delay of the
scheduled `setTimeout(checkForUpdates, 2000)` re-entry, when one was made. -/
structure UpdateRun where
  state : AppState
  scheduledRetry : Option Nat
  deriving Repr, DecidableEq

/-- `updateInfo` value recorded when the network probe reports no
connectivity (`App.tsx` lines 66-72 and 103-109). -/
def unknownUpdateInfo : UpdateInfo :=
  { hasUpdate := false, currentVersion := "Unknown", latestVersion := "Unknown",
    releaseNotes := "", checkComplete := true }

/-- The `catch` block of `checkForUpdates` (`App.tsx` lines 90-120),
operating on the state as mutated before the throw. -/
def updateCatch (s : AppState) (env : UpdateEnv) : UpdateRun :=
  if s.updateCheckRetries < MAX_RETRIES - 1 then
    if env.network2 then
      { state := { s with updateCheckRetries := s.updateCheckRetries + 1 },
        scheduledRetry := some 2000 }
    else
      { state := { s with updateInfo := some unknownUpdateInfo }, scheduledRetry := none }
  else
    let newInfo := s.updateInfo.map (fun p => { p with hasUpdate := false, checkComplete := true })
    { state := { s with updateInfo := newInfo }, scheduledRetry := none }

/-- `checkForUpdates` (`App.tsx` lines 58-121).  A fetch rejection, and a
successful fetch whose payload carries an `error` field (re-thrown at line
88), both land in the `catch` block. -/
def checkForUpdates (s : AppState) (env : UpdateEnv) : UpdateRun :=
  let s := { s with statusMessage := "Checking network connectivity..." }
  if !env.network1 then
    { state := { s with updateInfo := some unknownUpdateInfo }, scheduledRetry := none }
  else
    let suffix :=
      if s.updateCheckRetries > 0 then
        " (Attempt " ++ toString (s.updateCheckRetries + 1) ++ "/" ++ toString MAX_RETRIES ++ ")"
      else ""
    let s := { s with statusMessage := "Checking for updates" ++ suffix ++ "..." }
    match env.checkForUpdate with
    | .error _ => updateCatch s env
    | .ok d =>
      match d.error with
      | some _ => updateCatch s env
      | none =>
        let fetched : UpdateInfo :=
          { hasUpdate := d.hasUpdate, currentVersion := d.currentVersion,
            latestVersion := d.latestVersion, releaseNotes := d.releaseNotes,
            checkComplete := true }
        { state := { s with updateInfo := some fetched }, scheduledRetry := none }

/-- Result record of `api.saveConfig` as read by `handleSaveConfig`. -/
structure SaveResult where
  success : Bool
  error : Option String
  deriving Repr, DecidableEq

/-- Environment of one `handleSaveConfig` run. -/
structure SaveEnv where
  saveConfig : Except String SaveResult
  startContainer : Except String ContainerStartResult
  deriving Repr

/-- Outcome of one `handleSaveConfig` run. -/
structure SaveRun where
  state : AppState
  navigations : List String
  startCalls : Nat
  saveCalls : Nat
  exn : Option String
  deriving Repr, DecidableEq

/-- Fallback message when `saveConfig` reports failure without an error
string (`App.tsx` line 250). -/
def saveFallbackMsg : String :=
  "Unknown error occurred while saving configuration"

/-- The `try` block of `handleSaveConfig` (`App.tsx` lines 235-251). -/
def handleSaveConfigBody (s : AppState) (env : SaveEnv) : SaveRun :=
  match env.saveConfig with
  | .error e => { state := s, navigations := [], startCalls := 0, saveCalls := 1, exn := some e }
  | .ok result =>
    if result.success then
      let s := { s with isInitialLoad := false, isContainerStarting := true,
                        statusMessage := "Starting TAK Manager container..." }
      match env.startContainer with
      | .error e => { state := s, navigations := [], startCalls := 1, saveCalls := 1, exn := some e }
      | .ok cr =>
        if !cr.success then
          { state := { s with error := some (cr.error.getD startFallbackMsg) },
            navigations := [], startCalls := 1, saveCalls := 1, exn := none }
        else
          match cr.port with
          | some p =>
            { state := { s with statusMessage := "Opening TAK Manager..." },
              navigations := ["http://localhost:" ++ p], startCalls := 1, saveCalls := 1,
              exn := none }
          | none =>
            { state := s, navigations := [], startCalls := 1, saveCalls := 1, exn := none }
    else
      { state := { s with error := some (result.error.getD saveFallbackMsg) },
        navigations := [], startCalls := 0, saveCalls := 1, exn := none }

/-- `handleSaveConfig` (`App.tsx` lines 230-263): guard, `try` body, `catch`
setting the error message, and the unconditional `finally`. -/
def handleSaveConfig (s : AppState) (env : SaveEnv) : SaveRun :=
  if !s.isApiReady then
    { state := s, navigations := [], startCalls := 0, saveCalls := 0, exn := none }
  else
    let s := { s with isLoading := true, statusMessage := "Saving configuration..." }
    let r := handleSaveConfigBody s env
    let r :=
      match r.exn with
      | some e => { r with state := { r.state with error := some e }, exn := none }
      | none => r
    { r with state := { r.state with isLoading := false, isContainerStarting := false } }

/-- Result record of `api.openExternalUrl`. -/
structure OpenResult where
  success : Bool
  deriving Repr, DecidableEq

/-- Outcome of `handleUpdate`: the unchanged state and the rejection left
unhandled, when the fire-and-forget call fails. -/
structure HandleUpdateRun where
  state : AppState
  openCalls : Nat
  unhandledRejection : Option String
  deriving Repr, DecidableEq

/-- `handleUpdate` (`App.tsx` lines 123-128).  The bridge-availability test
reads `window.pywebview` directly, modelled by `bridgeReady`.  The
`api.openExternalUrl` promise is neither awaited nor given a rejection
handler, so a failing call surfaces as an unhandled rejection and no state
cell ever records it. -/
def handleUpdate (bridgeReady : Bool) (s : AppState)
    (openExternalUrl : Except String OpenResult) : HandleUpdateRun :=
  if bridgeReady then
    match openExternalUrl with
    | .error e => { state := s, openCalls := 1, unhandledRejection := some e }
    | .ok _ => { state := s, openCalls := 1, unhandledRejection := none }
  else
    { state := s, openCalls := 0, unhandledRejection := none }

/-- `handleSkipUpdate` (`App.tsx` lines 130-132). -/
def handleSkipUpdate (s : AppState) : AppState :=
  { s with updateInfo := s.updateInfo.map (fun p => { p with hasUpdate := false }) }

/-- `handleInstallDocker` (`App.tsx` lines 212-228): the whole call is
wrapped in `try`/`catch`, so every failure lands in the `error` cell. -/
def handleInstallDocker (s : AppState) (openExternalUrl : Except String OpenResult) : AppState :=
  if !s.isApiReady then s
  else
    match openExternalUrl with
    | .ok r => if !r.success then { s with error := some "Failed to open Docker installation page" } else s
    | .error e => { s with error := some e }

/-- `api.checkNetwork` (`api.ts` lines 134-145): the fetch is wrapped so a
rejection, a non-OK response, and an OK response all collapse to a boolean.
The argument is the fetch outcome: a rejection, or `(ok, connected)`. -/
def checkNetworkApi (fetchResult : Except String (Bool × Bool)) : Bool :=
  match fetchResult with
  | .error _ => false
  | .ok (ok, connected) => if !ok then false else connected

/-- `RESERVED_PORTS` (`ConfigScreen.tsx` line 27). -/
def RESERVED_PORTS : List Int := [5432, 8443, 8446, 8089, 8444]

/-- JavaScript `parseInt(value, 10)`: skip leading whitespace, accept one
optional sign, read the longest prefix of decimal digits, `NaN` (here
`none`) when that prefix is empty. -/
def parseIntJS (v : String) : Option Int :=
  let cs := v.data.dropWhile (fun c => c = ' ' ∨ c = '\t' ∨ c = '\n' ∨ c = '\r')
  let signAndRest : Int × List Char :=
    match cs with
    | '-' :: rest => (-1, rest)
    | '+' :: rest => (1, rest)
    | _ => (1, cs)
  let digits := signAndRest.2.takeWhile Char.isDigit
  if digits.isEmpty then none
  else some (signAndRest.1 * (Int.ofNat (digits.foldl (fun acc c => acc * 10 + (c.toNat - 48)) 0)))

/-- `formSchema` check of `installDir` (`ConfigScreen.tsx` lines 30-32):
the first failing message, `none` when the field validates. -/
def validateInstallDir (d : String) : Option String :=
  if d.length ≥ 1 then none else some "Install directory is required."

/-- `formSchema` checks of `port` (`ConfigScreen.tsx` lines 33-45) in order:
the `min(1)` length check, then the range refinement (a `NaN` from a
non-numeric string fails the `>= 1024` comparison), then the reserved-set
refinement.  Returns the first failing message, `none` when the field
validates. -/
def validatePort (p : String) : Option String :=
  if !(p.length ≥ 1 : Bool) then
    some "Port must be a number greater than or equal to 1024."
  else
    match parseIntJS p with
    | none => some "Port must be a number between 1024 and 49151."
    | some n =>
      if !(1024 ≤ n ∧ n ≤ 49151 : Bool) then
        some "Port must be a number between 1024 and 49151."
      else if n ∈ RESERVED_PORTS then
        some "The following ports are reserved: 5432, 8443, 8446, 8089, 8444"
      else none

/-- Result of `api.checkPortAvailability`. -/
structure PortCheck where
  available : Bool
  message : String
  deriving Repr, DecidableEq

/-- Environment of one form submission: `cached` is the `portAvailability`
React state filled by the on-change handler (`null` when no keystroke check
has resolved yet), `live` the outcome of a fresh
`api.checkPortAvailability` call. -/
structure SubmitEnv where
  cached : Option PortCheck
  live : Except String PortCheck
  deriving Repr

/-- Outcome of one form submission attempt: whether `onSaveConfig` was
invoked, whether any live `api.checkPortAvailability` call was made during
`onSubmit`, and the `port` field error set, when one was. -/
structure SubmitRun where
  saveCalled : Bool
  liveCheckCalls : Nat
  portError : Option String
  deriving Repr, DecidableEq

/-- The submission pipeline of `ConfigScreen` (`ConfigScreen.tsx` lines
53-93): `react-hook-form` with the zod resolver in `onSubmit` mode only
invokes `onSubmit` when both fields validate; `onSubmit` then evaluates
`portAvailability || await api.checkPortAvailability(portNumber)` — the
cached object short-circuits the live call whenever it is non-null, even
when it reports the port unavailable — and either blocks with a field error
or calls `onSaveConfig`. -/
def onSubmit (installDir port : String) (env : SubmitEnv) : SubmitRun :=
  if (validateInstallDir installDir).isSome || (validatePort port).isSome then
    { saveCalled := false, liveCheckCalls := 0, portError := validatePort port }
  else
    match env.cached with
    | some pc =>
      if !pc.available then
        { saveCalled := false, liveCheckCalls := 0, portError := some pc.message }
      else
        { saveCalled := true, liveCheckCalls := 0, portError := none }
    | none =>
      match env.live with
      | .ok pc =>
        if !pc.available then
          { saveCalled := false, liveCheckCalls := 1, portError := some pc.message }
        else
          { saveCalled := true, liveCheckCalls := 1, portError := none }
      | .error _ =>
        { saveCalled := false, liveCheckCalls := 1,
          portError := some "Error checking port availability" }

/-- The handler wired to the retry control of a rendered screen. -/
inductive RetryAction where
  | checkDockerAction
  | noAction
  deriving Repr, DecidableEq

/-- The screen the `App` component renders. -/
inductive Screen where
  | loadingScreen (statusMessage : String)
  | errorScreen (error : String) (onRetry : RetryAction)
  | updatePromptScreen (currentVersion latestVersion : String)
  | dockerInstallScreen
  | configScreen
  deriving Repr, DecidableEq

/-- The render logic of `App` (`App.tsx` lines 265-312): error screens carry
`onRetry = checkDocker` (line 271).  `isLoading` is never consulted by the
render path. -/
def render (s : AppState) : Screen :=
  if !checkCompleteOf s then
    .loadingScreen s.statusMessage
  else
    match s.error with
    | some e => .errorScreen e .checkDockerAction
    | none =>
      if hasUpdateOf s && checkCompleteOf s then
        .updatePromptScreen
          ((s.updateInfo.map (fun u => u.currentVersion)).getD "")
          ((s.updateInfo.map (fun u => u.latestVersion)).getD "")
      else
        match s.isDockerInstalled with
        | none => .loadingScreen s.statusMessage
        | some false => .dockerInstallScreen
        | some true =>
          match s.isDockerRunning with
          | none => .loadingScreen s.statusMessage
          | some false => .loadingScreen s.statusMessage
          | some true =>
            if s.isInitialLoad then .configScreen else .loadingScreen s.statusMessage

/-- The dependency tuple of the effect that triggers `checkDocker`
(`App.tsx` lines 199-203): the effect re-fires only when one of these
values changes between renders. -/
def effectDeps (s : AppState) : Bool × Bool × Bool :=
  (s.isApiReady, checkCompleteOf s, hasUpdateOf s)

/-- Spec phase `Ready` in terms of the model observables: the run handed
navigation off to the container URL and recorded no error. -/
def ReadyReached (r : DockerRun) : Prop :=
  r.navigations ≠ [] ∧ r.state.error = none

/-- True when the update fetch of this environment fails: the promise
rejects, or it resolves with a payload carrying an `error` field, which
`checkForUpdates` re-throws (`App.tsx` line 88). -/
def updateFetchFails (env : UpdateEnv) : Bool :=
  match env.checkForUpdate with
  | .error _ => true
  | .ok d => d.error.isSome

/-- Update info cell during the initial, still incomplete check. -/
def pendingUpdateInfo : UpdateInfo :=
  { hasUpdate := false, currentVersion := "", latestVersion := "",
    releaseNotes := "", checkComplete := false }

/-- State at the moment the third update-check attempt fails: two retries
already recorded. -/
def c1s : AppState :=
  { isDockerInstalled := none, isDockerRunning := none, isLoading := true, error := none,
    isContainerStarting := false, isApiReady := true, isInitialLoad := true,
    statusMessage := "Checking for updates...", updateInfo := some pendingUpdateInfo,
    updateCheckRetries := 2, dockerCheckAttempts := 0 }

/-- Environment where the update fetch rejects while the network probe still
reports connectivity, before and after the failure. -/
def c1env : UpdateEnv :=
  { network1 := true, checkForUpdate := .error "update check failed", network2 := true }

/-- C1 counterexample: at attempt count `n = 2 < MAX_RETRIES = 3` a failed
update check with the network still reachable schedules no retry and leaves
the counter unchanged, because the code guards the retry with
`updateCheckRetries < MAX_RETRIES - 1` (`App.tsx` line 93); the claim
asserts a retry and an increment for every `n < MAX_RETRIES`. -/
theorem checkForUpdates_claim_false :
    c1s.updateCheckRetries < MAX_RETRIES ∧
    c1env.network1 = true ∧ c1env.network2 = true ∧
    updateFetchFails c1env = true ∧
    (checkForUpdates c1s c1env).scheduledRetry = none ∧
    (checkForUpdates c1s c1env).state.updateCheckRetries = c1s.updateCheckRetries := by
  decide

/-- A failing update fetch is a rejected promise or a payload with an
`error` field. -/
theorem updateFetchFails_cases (env : UpdateEnv) (hfail : updateFetchFails env = true) :
    (∃ e, env.checkForUpdate = .error e) ∨
    (∃ d m, env.checkForUpdate = .ok d ∧ d.error = some m) := by
  unfold updateFetchFails at hfail
  cases h : env.checkForUpdate with
  | error e => exact Or.inl ⟨e, rfl⟩
  | ok d =>
    rw [h] at hfail
    cases hd : d.error with
    | none => simp [hd] at hfail
    | some m => exact Or.inr ⟨d, m, rfl, hd⟩

/-- C1 (amended): when the update fetch fails with the network still
reachable, the controller schedules exactly one 2000ms retry and increments
the counter by exactly 1 while `updateCheckRetries < MAX_RETRIES - 1`; at
`updateCheckRetries = MAX_RETRIES - 1` a further failure terminates the
loop without incrementing, setting `hasUpdate = false` and
`checkComplete = true`, so the counter never exceeds `MAX_RETRIES - 1`. -/
theorem checkForUpdates_retry_policy (s : AppState) (env : UpdateEnv) (u : UpdateInfo)
    (hnet1 : env.network1 = true) (hnet2 : env.network2 = true)
    (hfail : updateFetchFails env = true)
    (hinfo : s.updateInfo = some u) :
    (s.updateCheckRetries < MAX_RETRIES - 1 →
      (checkForUpdates s env).scheduledRetry = some 2000 ∧
      (checkForUpdates s env).state.updateCheckRetries = s.updateCheckRetries + 1) ∧
    (MAX_RETRIES - 1 ≤ s.updateCheckRetries →
      (checkForUpdates s env).scheduledRetry = none ∧
      (checkForUpdates s env).state.updateCheckRetries = s.updateCheckRetries ∧
      hasUpdateOf (checkForUpdates s env).state = false ∧
      checkCompleteOf (checkForUpdates s env).state = true) ∧
    (s.updateCheckRetries ≤ MAX_RETRIES - 1 →
      (checkForUpdates s env).state.updateCheckRetries ≤ MAX_RETRIES - 1) := by
  have hcatch : checkForUpdates s env = updateCatch
      { s with statusMessage := "Checking for updates" ++
          (if s.updateCheckRetries > 0 then
            " (Attempt " ++ toString (s.updateCheckRetries + 1) ++ "/" ++ toString MAX_RETRIES ++ ")"
          else "") ++ "..." } env := by
    rcases updateFetchFails_cases env hfail with ⟨e, he⟩ | ⟨d, m, hd, hm⟩
    · unfold checkForUpdates
      simp [hnet1, he]
    · unfold checkForUpdates
      simp [hnet1, hd, hm]
  rw [hcatch]
  unfold updateCatch
  refine ⟨?_, ?_, ?_⟩
  · intro h
    simp [h, hnet2]
  · intro h
    have h2 : ¬ s.updateCheckRetries < MAX_RETRIES - 1 := by omega
    simp [h2, hasUpdateOf, checkCompleteOf, hinfo]
  · intro h
    by_cases h2 : s.updateCheckRetries < MAX_RETRIES - 1
    · simp [h2, hnet2]
      omega
    · simp [h2]
      omega

/-- State at the first update-check attempt. -/
def c1ws : AppState := { c1s with updateCheckRetries := 0 }

theorem checkForUpdates_retry_policy_witness :
    (checkForUpdates c1ws c1env).scheduledRetry = some 2000 ∧
    (checkForUpdates c1ws c1env).state.updateCheckRetries = 1 :=
  (checkForUpdates_retry_policy c1ws c1env pendingUpdateInfo rfl rfl rfl rfl).1 (by decide)

/-- Destructured form of a completed update check. -/
theorem checkComplete_destruct (s : AppState) (hcc : checkCompleteOf s = true) :
    ∃ u, s.updateInfo = some u ∧ u.checkComplete = true := by
  unfold checkCompleteOf at hcc
  cases h : s.updateInfo with
  | none => rw [h] at hcc; simp at hcc
  | some u => rw [h] at hcc; exact ⟨u, rfl, hcc⟩

/-- C2: while `dockerCheckAttempts < MAX_DOCKER_CHECK_ATTEMPTS`, observing
Docker installed but not running increments the counter and schedules one
3000ms re-check; once the bound is reached the run records the fixed
failure message, schedules nothing, and the rendered error screen wires its
retry control to `checkDocker`. -/
theorem checkDocker_retry_policy (s : AppState) (env : DockerEnv)
    (hapi : s.isApiReady = true) (hcc : checkCompleteOf s = true)
    (hinst : env.checkDockerInstalled = .ok true)
    (hrun : env.checkDockerRunning = .ok false) :
    (s.dockerCheckAttempts < MAX_DOCKER_CHECK_ATTEMPTS →
      (checkDocker s env).state.dockerCheckAttempts = s.dockerCheckAttempts + 1 ∧
      (checkDocker s env).retryDelay = some 3000 ∧
      (checkDocker s env).state.error = none) ∧
    (MAX_DOCKER_CHECK_ATTEMPTS ≤ s.dockerCheckAttempts →
      (checkDocker s env).state.error = some dockerNotRunningMsg ∧
      (checkDocker s env).retryDelay = none ∧
      render (checkDocker s env).state = .errorScreen dockerNotRunningMsg .checkDockerAction) := by
  obtain ⟨u, hu, hcu⟩ := checkComplete_destruct s hcc
  constructor
  · intro h
    unfold checkDocker checkDockerBody
    simp [hapi, hcc, hinst, hrun, h]
    split <;> simp
  · intro h
    have h2 : ¬ s.dockerCheckAttempts < MAX_DOCKER_CHECK_ATTEMPTS := by omega
    unfold checkDocker checkDockerBody
    simp [hapi, hcc, hinst, hrun, h2]
    constructor
    · split <;> simp
    · split <;> simp [render, checkCompleteOf, hu, hcu]

/-- Completed no-update check metadata. -/
def doneUpdateInfo : UpdateInfo :=
  { hasUpdate := false, currentVersion := "1.0.0", latestVersion := "1.0.0",
    releaseNotes := "", checkComplete := true }

/-- State after ten not-running observations. -/
def c2s : AppState :=
  { isDockerInstalled := some true, isDockerRunning := some false, isLoading := true,
    error := none, isContainerStarting := false, isApiReady := true, isInitialLoad := true,
    statusMessage := "Waiting for Docker to start", updateInfo := some doneUpdateInfo,
    updateCheckRetries := 0, dockerCheckAttempts := 10 }

/-- Environment where Docker is installed but still not running. -/
def c2env : DockerEnv :=
  { checkDockerInstalled := .ok true, checkDockerRunning := .ok false,
    getConfig := .ok { TAK_SERVER_INSTALL_DIR := none, BACKEND_PORT := none },
    startContainer := .ok { success := false, error := none, port := none } }

theorem checkDocker_retry_policy_witness :
    (checkDocker c2s c2env).state.error = some dockerNotRunningMsg ∧
    (checkDocker c2s c2env).retryDelay = none ∧
    render (checkDocker c2s c2env).state = .errorScreen dockerNotRunningMsg .checkDockerAction :=
  (checkDocker_retry_policy c2s c2env rfl rfl rfl rfl).2 (by decide)

/-- A port string that parses to an out-of-range or reserved number, or does
not parse at all, fails the zod port checks. -/
theorem validatePort_fails (port : String)
    (h : parseIntJS port = none ∨
         ∃ n, parseIntJS port = some n ∧ (n < 1024 ∨ 49151 < n ∨ n ∈ RESERVED_PORTS)) :
    (validatePort port).isSome = true := by
  unfold validatePort
  by_cases hl : port.length ≥ 1
  · rcases h with h | ⟨n, hn, hcond⟩
    · simp [hl, h]
    · rcases hcond with hc | hc | hc
      · have hr : ¬ (1024 ≤ n ∧ n ≤ 49151) := by omega
        simp [hl, hn, hr]
      · have hr : ¬ (1024 ≤ n ∧ n ≤ 49151) := by omega
        simp [hl, hn, hr]
      · by_cases hr : 1024 ≤ n ∧ n ≤ 49151
        · simp [hl, hn, hr, hc]
        · simp [hl, hn, hr]
  · simp [hl]

/-- C3: a submission whose install directory is empty, or whose port string
does not parse, parses outside [1024, 49151], or parses to a reserved port,
never reaches `onSaveConfig` and triggers no availability call inside
`onSubmit`; in particular the port string 5432 is rejected with the message
listing the reserved ports, for every directory and environment. -/
theorem configValidation_rejects_before_save (dir port : String) (env : SubmitEnv)
    (h : dir = "" ∨ parseIntJS port = none ∨
         ∃ n, parseIntJS port = some n ∧ (n < 1024 ∨ 49151 < n ∨ n ∈ RESERVED_PORTS)) :
    (onSubmit dir port env).saveCalled = false ∧
    (onSubmit dir port env).liveCheckCalls = 0 ∧
    (onSubmit dir "5432" env).saveCalled = false ∧
    (onSubmit dir "5432" env).portError =
      some "The following ports are reserved: 5432, 8443, 8446, 8089, 8444" := by
  have hv : ((validateInstallDir dir).isSome || (validatePort port).isSome) = true := by
    rcases h with h | h
    · subst h
      simp [validateInstallDir]
    · simp [validatePort_fails port h]
  have h5 : (validatePort "5432").isSome = true := by decide
  have hv5 : ((validateInstallDir dir).isSome || (validatePort "5432").isSome) = true := by
    simp [h5]
  refine ⟨?_, ?_, ?_, ?_⟩
  · simp [onSubmit, hv]
  · simp [onSubmit, hv]
  · simp [onSubmit, hv5]
  · simp [onSubmit, hv5]
    decide

/-- Concrete submission environment for the C3 witness. -/
def c3env : SubmitEnv :=
  { cached := none, live := .ok { available := true, message := "Port 5432 is available" } }

theorem configValidation_rejects_before_save_witness :
    (onSubmit "/opt/tak" "5432" c3env).saveCalled = false ∧
    (onSubmit "/opt/tak" "5432" c3env).liveCheckCalls = 0 ∧
    (onSubmit "/opt/tak" "5432" c3env).saveCalled = false ∧
    (onSubmit "/opt/tak" "5432" c3env).portError =
      some "The following ports are reserved: 5432, 8443, 8446, 8089, 8444" :=
  configValidation_rejects_before_save "/opt/tak" "5432" c3env
    (Or.inr (Or.inr ⟨5432, by decide, Or.inr (Or.inr (by decide))⟩))

/-- Submission environment where a stale cached availability result from the
on-change handler says available while a fresh runtime check would say the
port is in use. -/
def c4env : SubmitEnv :=
  { cached := some { available := true, message := "Port 8989 is available" },
    live := .ok { available := false, message := "Port 8989 is already in use" } }

/-- C4 counterexample: a statically valid submission for which the Container
Runtime reports the port unavailable, yet `onSubmit` consults no live check
— the cached on-change result short-circuits the `||` at
`ConfigScreen.tsx` line 81 — and `onSaveConfig` is invoked anyway, with no
field error. -/
theorem onSubmit_cached_overrides_live :
    validateInstallDir "/opt/tak" = none ∧
    validatePort "8989" = none ∧
    c4env.live = .ok { available := false, message := "Port 8989 is already in use" } ∧
    (onSubmit "/opt/tak" "8989" c4env).liveCheckCalls = 0 ∧
    (onSubmit "/opt/tak" "8989" c4env).saveCalled = true ∧
    (onSubmit "/opt/tak" "8989" c4env).portError = none := by
  refine ⟨by decide, by decide, rfl, by decide, by decide, by decide⟩

/-- The availability result `onSubmit` actually evaluates: the cached
on-change result when one is present, a fresh live check otherwise
(`portAvailability || await api.checkPortAvailability(portNumber)`). -/
def consultedCheck (env : SubmitEnv) : Except String PortCheck :=
  match env.cached with
  | some pc => .ok pc
  | none => env.live

/-- C4 (amended): for every submission passing static validation, the
availability check consulted is the cached on-change result when present
and a fresh live check only otherwise; whenever the consulted check reports
the port unavailable its message becomes the port field error and
`onSaveConfig` is not invoked, whenever it reports available the save
proceeds, and a rejected fresh check blocks the submission with a generic
message. -/
theorem onSubmit_availability_gate (dir port : String) (env : SubmitEnv)
    (h1 : validateInstallDir dir = none) (h2 : validatePort port = none) :
    (∀ pc, consultedCheck env = .ok pc → pc.available = false →
      (onSubmit dir port env).saveCalled = false ∧
      (onSubmit dir port env).portError = some pc.message) ∧
    (∀ pc, consultedCheck env = .ok pc → pc.available = true →
      (onSubmit dir port env).saveCalled = true ∧
      (onSubmit dir port env).portError = none) ∧
    (∀ e, consultedCheck env = .error e →
      (onSubmit dir port env).saveCalled = false ∧
      (onSubmit dir port env).portError = some "Error checking port availability") ∧
    (env.cached = none → (onSubmit dir port env).liveCheckCalls = 1) ∧
    (∀ pc, env.cached = some pc → (onSubmit dir port env).liveCheckCalls = 0) := by
  unfold onSubmit consultedCheck
  cases hc : env.cached with
  | some pc0 =>
    refine ⟨?_, ?_, ?_, ?_, ?_⟩
    · intro pc hpc hav
      cases hpc
      simp [h1, h2, hav]
    · intro pc hpc hav
      cases hpc
      simp [h1, h2, hav]
    · intro e hpc
      cases hpc
    · intro hnone
      cases hnone
    · intro pc _
      cases hav : pc0.available <;> simp [h1, h2, hav]
  | none =>
    refine ⟨?_, ?_, ?_, ?_, ?_⟩
    · intro pc hpc hav
      replace hpc : env.live = Except.ok pc := hpc
      simp [h1, h2, hpc, hav]
    · intro pc hpc hav
      replace hpc : env.live = Except.ok pc := hpc
      simp [h1, h2, hpc, hav]
    · intro e hpc
      replace hpc : env.live = Except.error e := hpc
      simp [h1, h2, hpc]
    · intro _
      cases he : env.live with
      | ok pc => cases hav : pc.available <;> simp [h1, h2, he, hav]
      | error e => simp [h1, h2, he]
    · intro pc hpc
      cases hpc

/-- Submission environment with no cached result and a live check reporting
the port in use. -/
def c4wenv : SubmitEnv :=
  { cached := none, live := .ok { available := false, message := "Port 9000 is already in use" } }

theorem onSubmit_availability_gate_witness :
    (onSubmit "/opt/tak" "9000" c4wenv).saveCalled = false ∧
    (onSubmit "/opt/tak" "9000" c4wenv).portError = some "Port 9000 is already in use" :=
  (onSubmit_availability_gate "/opt/tak" "9000" c4wenv (by decide) (by decide)).1
    { available := false, message := "Port 9000 is already in use" } rfl rfl

/-- C5: with the update check complete, Docker installed and running, and a
stored configuration carrying both fields non-empty, a container start
resolving with success and port 8989 produces exactly one navigation call,
targeting http://localhost:8989, records no error, and reaches the nominal
terminal hand-off. -/
theorem checkDocker_start_success_navigates (s : AppState) (env : DockerEnv)
    (dir port : String) (oe : Option String)
    (hapi : s.isApiReady = true) (hcc : checkCompleteOf s = true)
    (hinst : env.checkDockerInstalled = .ok true)
    (hrun : env.checkDockerRunning = .ok true)
    (hcfg : env.getConfig = .ok { TAK_SERVER_INSTALL_DIR := some dir, BACKEND_PORT := some port })
    (hdir : dir ≠ "") (hport : port ≠ "")
    (hstart : env.startContainer = .ok { success := true, error := oe, port := some "8989" }) :
    (checkDocker s env).navigations = ["http://localhost:8989"] ∧
    (checkDocker s env).startCalls = 1 ∧
    (checkDocker s env).state.error = none ∧
    ReadyReached (checkDocker s env) := by
  have hde : dir.isEmpty = false := by
    cases hi : dir.isEmpty
    · rfl
    · exact absurd ((String.isEmpty_iff dir).mp hi) hdir
  have hpe : port.isEmpty = false := by
    cases hi : port.isEmpty
    · rfl
    · exact absurd ((String.isEmpty_iff port).mp hi) hport
  unfold checkDocker checkDockerBody ReadyReached
  simp [hapi, hcc, hinst, hrun, hcfg, hstart, truthy, hde, hpe]
  split <;> simp

/-- Ready-precondition state for the C5 witness. -/
def c5s : AppState :=
  { isDockerInstalled := none, isDockerRunning := none, isLoading := true, error := none,
    isContainerStarting := false, isApiReady := true, isInitialLoad := true,
    statusMessage := "Checking Docker installation...", updateInfo := some doneUpdateInfo,
    updateCheckRetries := 0, dockerCheckAttempts := 0 }

/-- Environment of the nominal scenario: everything succeeds, the container
reports port 8989. -/
def c5env : DockerEnv :=
  { checkDockerInstalled := .ok true, checkDockerRunning := .ok true,
    getConfig := .ok { TAK_SERVER_INSTALL_DIR := some "/opt/tak", BACKEND_PORT := some "8989" },
    startContainer := .ok { success := true, error := none, port := some "8989" } }

theorem checkDocker_start_success_navigates_witness :
    (checkDocker c5s c5env).navigations = ["http://localhost:8989"] ∧
    (checkDocker c5s c5env).startCalls = 1 ∧
    (checkDocker c5s c5env).state.error = none ∧
    ReadyReached (checkDocker c5s c5env) :=
  checkDocker_start_success_navigates c5s c5env "/opt/tak" "8989" none
    rfl rfl rfl rfl rfl (by decide) (by decide) rfl

/-- C6: whenever a container start resolves with `success = false`, both
call sites — the readiness check and the configuration save flow — record
as the displayed error the runtime error string when one is supplied and
the fixed fallback otherwise, and the error screen is rendered. -/
theorem startFailure_sets_error (s : AppState) (env : DockerEnv)
    (dir port : String) (r : ContainerStartResult)
    (hapi : s.isApiReady = true) (hcc : checkCompleteOf s = true)
    (hinst : env.checkDockerInstalled = .ok true)
    (hrun : env.checkDockerRunning = .ok true)
    (hcfg : env.getConfig = .ok { TAK_SERVER_INSTALL_DIR := some dir, BACKEND_PORT := some port })
    (hdir : dir ≠ "") (hport : port ≠ "")
    (hstart : env.startContainer = .ok r) (hfail : r.success = false)
    (s2 : AppState) (env2 : SaveEnv) (r2 : ContainerStartResult) (sr : SaveResult)
    (hapi2 : s2.isApiReady = true) (hcc2 : checkCompleteOf s2 = true)
    (hsave : env2.saveConfig = .ok sr) (hsucc : sr.success = true)
    (hstart2 : env2.startContainer = .ok r2) (hfail2 : r2.success = false) :
    (checkDocker s env).state.error = some (r.error.getD startFallbackMsg) ∧
    render (checkDocker s env).state =
      .errorScreen (r.error.getD startFallbackMsg) .checkDockerAction ∧
    (handleSaveConfig s2 env2).state.error = some (r2.error.getD startFallbackMsg) ∧
    render (handleSaveConfig s2 env2).state =
      .errorScreen (r2.error.getD startFallbackMsg) .checkDockerAction := by
  obtain ⟨u, hu, hcu⟩ := checkComplete_destruct s hcc
  obtain ⟨u2, hu2, hcu2⟩ := checkComplete_destruct s2 hcc2
  have hde : dir.isEmpty = false := by
    cases hi : dir.isEmpty
    · rfl
    · exact absurd ((String.isEmpty_iff dir).mp hi) hdir
  have hpe : port.isEmpty = false := by
    cases hi : port.isEmpty
    · rfl
    · exact absurd ((String.isEmpty_iff port).mp hi) hport
  refine ⟨?_, ?_, ?_, ?_⟩
  · unfold checkDocker checkDockerBody
    simp [hapi, hcc, hinst, hrun, hcfg, hstart, hfail, truthy, hde, hpe]
    split <;> simp
  · unfold checkDocker checkDockerBody
    simp [hapi, hcc, hinst, hrun, hcfg, hstart, hfail, truthy, hde, hpe]
    split <;> simp [render, checkCompleteOf, hu, hcu]
  · unfold handleSaveConfig handleSaveConfigBody
    simp [hapi2, hsave, hsucc, hstart2, hfail2]
  · unfold handleSaveConfig handleSaveConfigBody
    simp [hapi2, hsave, hsucc, hstart2, hfail2, render, checkCompleteOf, hu2, hcu2]

/-- Save-flow state for the C6 witness: configuration just submitted. -/
def c6s2 : AppState :=
  { isDockerInstalled := some true, isDockerRunning := some true, isLoading := false,
    error := none, isContainerStarting := false, isApiReady := true, isInitialLoad := true,
    statusMessage := "Checking configuration...", updateInfo := some doneUpdateInfo,
    updateCheckRetries := 0, dockerCheckAttempts := 0 }

/-- Readiness-check environment where the container start reports a failure
with a runtime-supplied message. -/
def c6env : DockerEnv :=
  { checkDockerInstalled := .ok true, checkDockerRunning := .ok true,
    getConfig := .ok { TAK_SERVER_INSTALL_DIR := some "/opt/tak", BACKEND_PORT := some "8989" },
    startContainer := .ok { success := false, error := some "image not found", port := none } }

/-- Save-flow environment where the container start reports a bare failure. -/
def c6env2 : SaveEnv :=
  { saveConfig := .ok { success := true, error := none },
    startContainer := .ok { success := false, error := none, port := none } }

theorem startFailure_sets_error_witness :
    (checkDocker c5s c6env).state.error = some "image not found" ∧
    render (checkDocker c5s c6env).state = .errorScreen "image not found" .checkDockerAction ∧
    (handleSaveConfig c6s2 c6env2).state.error = some startFallbackMsg ∧
    render (handleSaveConfig c6s2 c6env2).state =
      .errorScreen startFallbackMsg .checkDockerAction :=
  startFailure_sets_error c5s c6env "/opt/tak" "8989"
    { success := false, error := some "image not found", port := none }
    rfl rfl rfl rfl rfl (by decide) (by decide) rfl rfl
    c6s2 c6env2 { success := false, error := none, port := none }
    { success := true, error := none }
    rfl rfl rfl rfl rfl rfl

/-- State showing the update prompt, where `handleUpdate` can fire. -/
def c7s : AppState :=
  { isDockerInstalled := none, isDockerRunning := none, isLoading := true, error := none,
    isContainerStarting := false, isApiReady := true, isInitialLoad := true,
    statusMessage := "Checking for updates...",
    updateInfo := some { hasUpdate := true, currentVersion := "1.0.0", latestVersion := "1.1.0",
                         releaseNotes := "notes", checkComplete := true },
    updateCheckRetries := 0, dockerCheckAttempts := 0 }

/-- C7 counterexample: the release-page call site in `handleUpdate` is not
wrapped — `api.openExternalUrl` is invoked without `await` or a rejection
handler (`App.tsx` line 126) — so its failure propagates as an unhandled
promise rejection and produces no state transition at all. -/
theorem handleUpdate_unhandled_rejection :
    (handleUpdate true c7s (.error "Failed to open external URL")).openCalls = 1 ∧
    (handleUpdate true c7s (.error "Failed to open external URL")).unhandledRejection =
      some "Failed to open external URL" ∧
    (handleUpdate true c7s (.error "Failed to open external URL")).state = c7s := by
  exact ⟨rfl, rfl, rfl⟩

/-- C7 (amended): every external call site in the controller other than the
release-page open in `handleUpdate` is wrapped so that a failure degrades
to a state transition: a rejection escaping the `checkDocker` try body
lands in the `error` cell, as does one in `handleSaveConfig` and in
`handleInstallDocker`, and `api.checkNetwork` collapses every rejection to
`false`; `handleUpdate` alone lets its rejection escape unhandled, leaving
the state unchanged. -/
theorem errorHandling_wrapped_sites :
    (∀ s env e, s.isApiReady = true → checkCompleteOf s = true →
      (checkDockerBody s env).exn = some e →
      (checkDocker s env).state.error = some e ∧ (checkDocker s env).exn = none) ∧
    (∀ s env e, s.isApiReady = true →
      (handleSaveConfigBody
        { s with isLoading := true, statusMessage := "Saving configuration..." } env).exn = some e →
      (handleSaveConfig s env).state.error = some e ∧ (handleSaveConfig s env).exn = none) ∧
    (∀ s e, s.isApiReady = true → (handleInstallDocker s (.error e)).error = some e) ∧
    (∀ fr e, fr = .error e → checkNetworkApi fr = false) ∧
    (∀ s e b, (handleUpdate b s (.error e)).state = s ∧
      (handleUpdate b s (.error e)).unhandledRejection = if b then some e else none) := by
  refine ⟨?_, ?_, ?_, ?_, ?_⟩
  · intro s env e hapi hcc hexn
    unfold checkDocker
    simp only [hapi, hcc, Bool.not_true, Bool.or_self, Bool.false_eq_true, if_false, hexn]
    split <;> simp
  · intro s env e hapi hexn
    unfold handleSaveConfig
    rw [hapi] at hexn
    simp only [hapi, Bool.not_true, Bool.false_eq_true, if_false, hexn]
    simp
  · intro s e hapi
    unfold handleInstallDocker
    simp [hapi]
  · intro fr e hfr
    subst hfr
    rfl
  · intro s e b
    cases b <;> exact ⟨rfl, rfl⟩

theorem errorHandling_wrapped_sites_witness :
    (checkDocker c5s
      { checkDockerInstalled := .error "Failed to check Docker installation",
        checkDockerRunning := .ok true,
        getConfig := .ok { TAK_SERVER_INSTALL_DIR := none, BACKEND_PORT := none },
        startContainer := .ok { success := true, error := none, port := none } }).state.error =
      some "Failed to check Docker installation" ∧
    (checkDocker c5s
      { checkDockerInstalled := .error "Failed to check Docker installation",
        checkDockerRunning := .ok true,
        getConfig := .ok { TAK_SERVER_INSTALL_DIR := none, BACKEND_PORT := none },
        startContainer := .ok { success := true, error := none, port := none } }).exn = none :=
  errorHandling_wrapped_sites.1 c5s
    { checkDockerInstalled := .error "Failed to check Docker installation",
      checkDockerRunning := .ok true,
      getConfig := .ok { TAK_SERVER_INSTALL_DIR := none, BACKEND_PORT := none },
      startContainer := .ok { success := true, error := none, port := none } }
    "Failed to check Docker installation" rfl rfl rfl

/-- Destructured form of an absent update flag. -/
theorem hasUpdate_destruct (s : AppState) (u : UpdateInfo)
    (hu : s.updateInfo = some u) (hupd : hasUpdateOf s = false) :
    u.hasUpdate = false := by
  unfold hasUpdateOf at hupd
  rw [hu] at hupd
  exact hupd

/-- C8: a stored configuration missing either field is treated as no
configuration — the readiness check makes no start attempt, navigates
nowhere, and the app renders the configuration form; and in full
generality, for every state and environment a start call implies the
stored configuration resolved with both fields present and non-empty. -/
theorem partialConfig_routes_to_form (s : AppState) (env : DockerEnv) (cfg : ConfigData)
    (hapi : s.isApiReady = true) (hcc : checkCompleteOf s = true)
    (hupd : hasUpdateOf s = false) (hinit : s.isInitialLoad = true)
    (hinst : env.checkDockerInstalled = .ok true)
    (hrun : env.checkDockerRunning = .ok true)
    (hcfg : env.getConfig = .ok cfg)
    (hnotboth : (truthy cfg.TAK_SERVER_INSTALL_DIR && truthy cfg.BACKEND_PORT) = false) :
    (checkDocker s env).startCalls = 0 ∧
    (checkDocker s env).navigations = [] ∧
    render (checkDocker s env).state = .configScreen ∧
    (∀ s2 : AppState, ∀ env2 : DockerEnv, ∀ cfg2 : ConfigData,
      env2.getConfig = .ok cfg2 →
      (truthy cfg2.TAK_SERVER_INSTALL_DIR && truthy cfg2.BACKEND_PORT) = false →
      (checkDocker s2 env2).startCalls = 0) := by
  obtain ⟨u, hu, hcu⟩ := checkComplete_destruct s hcc
  have hcu2 := hasUpdate_destruct s u hu hupd
  refine ⟨?_, ?_, ?_, ?_⟩
  · unfold checkDocker checkDockerBody
    simp [hapi, hcc, hinst, hrun, hcfg, hnotboth]
    split <;> simp
  · unfold checkDocker checkDockerBody
    simp [hapi, hcc, hinst, hrun, hcfg, hnotboth]
    split <;> simp
  · unfold checkDocker checkDockerBody
    simp [hapi, hcc, hinst, hrun, hcfg, hnotboth]
    split <;> simp [render, checkCompleteOf, hasUpdateOf, hu, hcu, hcu2, hinit]
  · intro s2 env2 cfg2 hcfg2 hnb2
    unfold checkDocker checkDockerBody
    by_cases hg : (!s2.isApiReady || !checkCompleteOf s2) = true
    · simp [hg]
    · simp only [hg, Bool.false_eq_true, if_false]
      cases hi : env2.checkDockerInstalled with
      | error e =>
        simp [hi]
        split <;> simp
      | ok installed =>
        cases installed with
        | false => simp [hi]; split <;> simp
        | true =>
          cases hr : env2.checkDockerRunning with
          | error e => simp [hi, hr]; split <;> simp
          | ok running =>
            cases running with
            | false =>
              simp only [hi, hr]
              by_cases hb : s2.dockerCheckAttempts < MAX_DOCKER_CHECK_ATTEMPTS
              · simp [hb]; split <;> simp
              · simp [hb]; split <;> simp
            | true =>
              simp [hi, hr, hcfg2, hnb2]
              split <;> simp

/-- Environment whose stored configuration has only the directory field. -/
def c8env : DockerEnv :=
  { checkDockerInstalled := .ok true, checkDockerRunning := .ok true,
    getConfig := .ok { TAK_SERVER_INSTALL_DIR := some "/opt/tak", BACKEND_PORT := some "" },
    startContainer := .ok { success := true, error := none, port := some "8989" } }

theorem partialConfig_routes_to_form_witness :
    (checkDocker c5s c8env).startCalls = 0 ∧
    (checkDocker c5s c8env).navigations = [] ∧
    render (checkDocker c5s c8env).state = .configScreen :=
  have h := partialConfig_routes_to_form c5s c8env
    { TAK_SERVER_INSTALL_DIR := some "/opt/tak", BACKEND_PORT := some "" }
    rfl rfl rfl rfl rfl rfl rfl (by decide)
  ⟨h.1, h.2.1, h.2.2.1⟩

/-- Ready-precondition state for the idempotence scenario. -/
def c9s : AppState :=
  { isDockerInstalled := none, isDockerRunning := none, isLoading := true, error := none,
    isContainerStarting := false, isApiReady := true, isInitialLoad := true,
    statusMessage := "Checking Docker installation...", updateInfo := some doneUpdateInfo,
    updateCheckRetries := 0, dockerCheckAttempts := 0 }

/-- Environment of the idempotence scenario: Docker running, configuration
complete, start succeeds with a port. -/
def c9env : DockerEnv :=
  { checkDockerInstalled := .ok true, checkDockerRunning := .ok true,
    getConfig := .ok { TAK_SERVER_INSTALL_DIR := some "/opt/tak", BACKEND_PORT := some "8989" },
    startContainer := .ok { success := true, error := none, port := some "8989" } }

/-- C9 counterexample: a first readiness check reaches the Ready hand-off,
yet invoking `checkDocker` a second time in the resulting state invokes
`api.startContainer` again — the code has no guard against re-running the
start (`App.tsx` lines 148-164), so the claimed idempotence fails. -/
theorem checkDocker_second_call_restarts :
    ReadyReached (checkDocker c9s c9env) ∧
    (checkDocker (checkDocker c9s c9env).state c9env).startCalls = 1 := by
  constructor
  · unfold ReadyReached
    exact ⟨by decide, by decide⟩
  · decide

/-- C9 (amended): after a readiness check that reaches the Ready hand-off,
the effect dependency tuple gating the automatic `checkDocker` trigger is
unchanged, so the controller never schedules a second readiness check by
itself; but a direct second invocation of the readiness check in the Ready
state does re-invoke the container start operation. -/
theorem checkDocker_ready_not_idempotent (s : AppState) (env : DockerEnv)
    (dir port p : String) (oe : Option String)
    (hapi : s.isApiReady = true) (hcc : checkCompleteOf s = true)
    (hinst : env.checkDockerInstalled = .ok true)
    (hrun : env.checkDockerRunning = .ok true)
    (hcfg : env.getConfig = .ok { TAK_SERVER_INSTALL_DIR := some dir, BACKEND_PORT := some port })
    (hdir : dir ≠ "") (hport : port ≠ "")
    (hstart : env.startContainer = .ok { success := true, error := oe, port := some p }) :
    (checkDocker (checkDocker s env).state env).startCalls = 1 ∧
    effectDeps (checkDocker s env).state = effectDeps s := by
  obtain ⟨u, hu, hcu⟩ := checkComplete_destruct s hcc
  have hde : dir.isEmpty = false := by
    cases hi : dir.isEmpty
    · rfl
    · exact absurd ((String.isEmpty_iff dir).mp hi) hdir
  have hpe : port.isEmpty = false := by
    cases hi : port.isEmpty
    · rfl
    · exact absurd ((String.isEmpty_iff port).mp hi) hport
  unfold checkDocker checkDockerBody effectDeps
  simp [hapi, hcc, hinst, hrun, hcfg, hstart, truthy, hde, hpe, checkCompleteOf, hasUpdateOf, hu, hcu]
  split <;> simp [hu, hcu]

theorem checkDocker_ready_not_idempotent_witness :
    (checkDocker (checkDocker c9s c9env).state c9env).startCalls = 1 ∧
    effectDeps (checkDocker c9s c9env).state = effectDeps c9s :=
  checkDocker_ready_not_idempotent c9s c9env "/opt/tak" "8989" "8989" none
    rfl rfl rfl rfl rfl (by decide) (by decide) rfl

/-- C10: a container start resolving `success = true` with no `port` field
takes neither the error branch nor the navigation branch at both call
sites: no navigation happens, the error cell stays `none`, and the app
keeps rendering the loading screen with the container-start status
message. -/
theorem start_without_port_silent (s : AppState) (env : DockerEnv)
    (dir port : String) (oe : Option String)
    (hapi : s.isApiReady = true) (hcc : checkCompleteOf s = true)
    (hupd : hasUpdateOf s = false)
    (hinst : env.checkDockerInstalled = .ok true)
    (hrun : env.checkDockerRunning = .ok true)
    (hcfg : env.getConfig = .ok { TAK_SERVER_INSTALL_DIR := some dir, BACKEND_PORT := some port })
    (hdir : dir ≠ "") (hport : port ≠ "")
    (hstart : env.startContainer = .ok { success := true, error := oe, port := none })
    (s2 : AppState) (env2 : SaveEnv) (oe2 : Option String) (sr : SaveResult)
    (hapi2 : s2.isApiReady = true) (hcc2 : checkCompleteOf s2 = true)
    (hupd2 : hasUpdateOf s2 = false) (herr2 : s2.error = none)
    (hdi2 : s2.isDockerInstalled = some true) (hdr2 : s2.isDockerRunning = some true)
    (hsave : env2.saveConfig = .ok sr) (hsucc : sr.success = true)
    (hstart2 : env2.startContainer = .ok { success := true, error := oe2, port := none }) :
    (checkDocker s env).navigations = [] ∧
    (checkDocker s env).state.error = none ∧
    (checkDocker s env).state.statusMessage = "Starting TAK Manager container..." ∧
    render (checkDocker s env).state = .loadingScreen "Starting TAK Manager container..." ∧
    (handleSaveConfig s2 env2).navigations = [] ∧
    (handleSaveConfig s2 env2).state.error = none ∧
    (handleSaveConfig s2 env2).state.statusMessage = "Starting TAK Manager container..." ∧
    render (handleSaveConfig s2 env2).state = .loadingScreen "Starting TAK Manager container..." := by
  obtain ⟨u, hu, hcu⟩ := checkComplete_destruct s hcc
  have hcuu := hasUpdate_destruct s u hu hupd
  obtain ⟨u2, hu2, hcu2⟩ := checkComplete_destruct s2 hcc2
  have hcuu2 := hasUpdate_destruct s2 u2 hu2 hupd2
  have hde : dir.isEmpty = false := by
    cases hi : dir.isEmpty
    · rfl
    · exact absurd ((String.isEmpty_iff dir).mp hi) hdir
  have hpe : port.isEmpty = false := by
    cases hi : port.isEmpty
    · rfl
    · exact absurd ((String.isEmpty_iff port).mp hi) hport
  refine ⟨?_, ?_, ?_, ?_, ?_, ?_, ?_, ?_⟩
  · unfold checkDocker checkDockerBody
    simp [hapi, hcc, hinst, hrun, hcfg, hstart, truthy, hde, hpe]
    split <;> simp
  · unfold checkDocker checkDockerBody
    simp [hapi, hcc, hinst, hrun, hcfg, hstart, truthy, hde, hpe]
    split <;> simp
  · unfold checkDocker checkDockerBody
    simp [hapi, hcc, hinst, hrun, hcfg, hstart, truthy, hde, hpe]
    split <;> simp
  · unfold checkDocker checkDockerBody
    simp [hapi, hcc, hinst, hrun, hcfg, hstart, truthy, hde, hpe]
    split <;> simp [render, checkCompleteOf, hasUpdateOf, hu, hcu, hcuu]
  · unfold handleSaveConfig handleSaveConfigBody
    simp [hapi2, hsave, hsucc, hstart2]
  · unfold handleSaveConfig handleSaveConfigBody
    simp [hapi2, hsave, hsucc, hstart2, herr2]
  · unfold handleSaveConfig handleSaveConfigBody
    simp [hapi2, hsave, hsucc, hstart2]
  · unfold handleSaveConfig handleSaveConfigBody
    simp [hapi2, hsave, hsucc, hstart2, render, checkCompleteOf, hasUpdateOf,
          hu2, hcu2, hcuu2, herr2, hdi2, hdr2]

/-- Environment whose container start succeeds without reporting a port. -/
def c10env : DockerEnv :=
  { checkDockerInstalled := .ok true, checkDockerRunning := .ok true,
    getConfig := .ok { TAK_SERVER_INSTALL_DIR := some "/opt/tak", BACKEND_PORT := some "8989" },
    startContainer := .ok { success := true, error := none, port := none } }

/-- Save-flow state for the C10 witness. -/
def c10s2 : AppState :=
  { isDockerInstalled := some true, isDockerRunning := some true, isLoading := false,
    error := none, isContainerStarting := false, isApiReady := true, isInitialLoad := true,
    statusMessage := "Checking configuration...", updateInfo := some doneUpdateInfo,
    updateCheckRetries := 0, dockerCheckAttempts := 0 }

/-- Save-flow environment whose container start succeeds without a port. -/
def c10env2 : SaveEnv :=
  { saveConfig := .ok { success := true, error := none },
    startContainer := .ok { success := true, error := none, port := none } }

theorem start_without_port_silent_witness :
    (checkDocker c5s c10env).navigations = [] ∧
    (checkDocker c5s c10env).state.error = none ∧
    (checkDocker c5s c10env).state.statusMessage = "Starting TAK Manager container..." ∧
    render (checkDocker c5s c10env).state = .loadingScreen "Starting TAK Manager container..." ∧
    (handleSaveConfig c10s2 c10env2).navigations = [] ∧
    (handleSaveConfig c10s2 c10env2).state.error = none ∧
    (handleSaveConfig c10s2 c10env2).state.statusMessage = "Starting TAK Manager container..." ∧
    render (handleSaveConfig c10s2 c10env2).state =
      .loadingScreen "Starting TAK Manager container..." :=
  start_without_port_silent c5s c10env "/opt/tak" "8989" none
    rfl rfl rfl rfl rfl rfl (by decide) (by decide) rfl
    c10s2 c10env2 none { success := true, error := none }
    rfl rfl rfl rfl rfl rfl rfl rfl rfl
